import Mathlib

/-!
# Verification of the price-comparison scraper (`scrapy.py`)

A shallow embedding of the program in `src/scrapy.py`: two Selenium-based
scrapers (`AmazonScraper.scrape_product`, `FlipkartScraper.scrape_product`)
producing `ProductDetails` records, and the aggregation step of
`ProductAnalyzer.analyze_product`.

Modelling conventions:
* A rendered page is modelled as a function from CSS selector strings to a
  lookup outcome: the element is absent (Selenium timeout, so
  `_wait_and_get_element` returns `None`), present with some raw text, or the
  lookup raises a non-timeout WebDriver exception (which propagates to the
  scraper's top-level `except`).  Navigation (`driver.get`) may fail, which
  also lands in the top-level `except`.
* Python `float` values are modelled as `ℚ`; the texts the program parses are
  plain decimal literals, so the binary-float rounding of CPython is
  immaterial to the claims and the idealised rational semantics is used.
* Exceptions inside one `scrape_product` call are modelled with
  `Except ProductDetails ProductDetails`: the `error` payload is the partial
  record at the moment the exception is raised, and the top-level
  `try/except` (`runScrape`) returns that payload.
-/

/-! ## Python string and number primitives -/

/-- `Char` list consisting solely of ASCII digits (and nonempty handling is at
call sites).  Python's `float`/`int` accept exactly digit runs in the places
this program feeds them. -/
def allDigits (l : List Char) : Bool :=
  l.all Char.isDigit

/-- Numeric value of a digit run, most significant first. -/
def digitsToNat (l : List Char) : ℕ :=
  l.foldl (fun a c => 10 * a + (c.toNat - 48)) 0

/-- Unsigned core of Python `float(s)` on the decimal literals this program
produces: an optional integer part, an optional `'.'`, an optional fractional
part, with at least one digit overall.  (Python's `float` also accepts
exponents, `inf`/`nan`, underscores and surrounding whitespace; none of those
shapes reach the parser in this program, whose inputs are already stripped.)
The result is kept at digit level — integer-part value, fraction value,
fraction length — so that parses of concrete strings compute inside the
kernel; `ratOfParts` turns it into the rational value. -/
def pyDecimalCore (cs : List Char) : Option (ℕ × ℕ × ℕ) :=
  let ip := cs.takeWhile (fun c => c ≠ '.')
  let rest := cs.dropWhile (fun c => c ≠ '.')
  match rest with
  | [] =>
    if allDigits ip ∧ ip ≠ [] then some (digitsToNat ip, 0, 0) else none
  | _ :: fp =>
    if allDigits ip ∧ allDigits fp ∧ (ip ≠ [] ∨ fp ≠ []) then
      some (digitsToNat ip, digitsToNat fp, fp.length)
    else none

/-- Sign and digit-level decimal parts of Python `float(s)`. -/
def pyFloatParts (s : String) : Option (Bool × ℕ × ℕ × ℕ) :=
  match s.data with
  | '-' :: cs => (pyDecimalCore cs).map (fun p => (true, p))
  | '+' :: cs => (pyDecimalCore cs).map (fun p => (false, p))
  | cs => (pyDecimalCore cs).map (fun p => (false, p))

/-- Rational value of a signed decimal: `(-1)^sign * (ipart + frac / 10^k)`. -/
def ratOfParts (sign : Bool) (p : ℕ × ℕ × ℕ) : ℚ :=
  (if sign then -1 else 1) * ((p.1 : ℚ) + (p.2.1 : ℚ) / (10 : ℚ) ^ p.2.2)

/-- Python `float(s)`, returning `none` where CPython raises `ValueError`. -/
def pyFloat (s : String) : Option ℚ :=
  (pyFloatParts s).map (fun q => ratOfParts q.1 q.2)

/-- Python `int(s)`, returning `none` where CPython raises `ValueError`. -/
def pyInt (s : String) : Option ℤ :=
  match s.data with
  | '-' :: cs => if allDigits cs ∧ cs ≠ [] then some (-(digitsToNat cs : ℤ)) else none
  | '+' :: cs => if allDigits cs ∧ cs ≠ [] then some (digitsToNat cs : ℤ) else none
  | cs => if allDigits cs ∧ cs ≠ [] then some (digitsToNat cs : ℤ) else none

/-- Python `s.strip()`: drop leading and trailing whitespace. -/
def pyStrip (s : String) : String :=
  ⟨((s.data.dropWhile Char.isWhitespace).reverse.dropWhile Char.isWhitespace).reverse⟩

/-- Python `s.split()[0]` guarded by `IndexError`: the first maximal run of
non-whitespace characters, or `none` when the string is all whitespace. -/
def pySplitFirst (s : String) : Option String :=
  match s.data.dropWhile Char.isWhitespace with
  | [] => none
  | t => some ⟨t.takeWhile (fun c => !c.isWhitespace)⟩

/-- Python `s.replace(c, '')` for a single-character pattern: remove every
occurrence of the character. -/
def pyRemoveChar (s : String) (c : Char) : String :=
  ⟨s.data.filter (fun x => x ≠ c)⟩

/-! ## The `ProductDetails` record (`@dataclass class ProductDetails`) -/

/-- `ProductDetails` from `scrapy.py` lines 24–34.  `price`/`rating` are
Python floats (modelled `ℚ`), `review_count` a Python int (modelled `ℤ`,
unbounded and signed exactly as in CPython). -/
structure ProductDetails where
  price : ℚ
  stock_status : String
  rating : ℚ
  review_count : ℤ
  seller : String
  platform : String
  url : String
  timestamp : String
deriving DecidableEq, Repr

/-- The dataclass defaults.  In the source, the `timestamp` default expression
`datetime.now().strftime("%Y-%m-%d %H:%M:%S")` is evaluated exactly once, when
the class body executes at module load; `classDefTime` is that frozen clock
reading. -/
def defaultDetails (classDefTime : String) : ProductDetails :=
  { price := 0
    stock_status := "Unknown"
    rating := 0
    review_count := 0
    seller := "Unknown"
    platform := "Unknown"
    url := ""
    timestamp := classDefTime }

/-- Constructing `ProductDetails(platform=…, url=…)` at clock reading
`constructionTime`.  The source never passes `timestamp`, so the record
receives the frozen class-definition default `classDefTime`; the clock reading
at construction (`constructionTime`) is available to the runtime but never
consulted by the code. -/
def productDetailsAt (classDefTime constructionTime platform url : String) :
    ProductDetails :=
  { defaultDetails classDefTime with platform := platform, url := url }

/-! ## Page model -/

/-- Outcome of `_wait_and_get_element(By.CSS_SELECTOR, sel)` followed by
reading the element's text.
* `absent`: timeout; `_wait_and_get_element` catches `TimeoutException` and
  returns `None`.
* `found text`: an element is present whose raw `.text` is `text`
  (`_safe_get_text` strips it; a failing `.text` access is caught there and
  behaves like `found ""`).
* `raises`: the lookup throws a non-timeout WebDriver exception, which
  `_wait_and_get_element` does not catch, so it propagates to
  `scrape_product`'s top-level `except`. -/
inductive Lookup where
  | absent : Lookup
  | found : String → Lookup
  | raises : Lookup
deriving DecidableEq, Repr

/-- One rendered page as the scraper observes it: whether `driver.get` fails,
and the lookup outcome per CSS selector. -/
structure Page where
  navFails : Bool
  lookup : String → Lookup

/-- `_safe_get_text` on a present element: trimmed text. -/
def safeGetText (raw : String) : String :=
  pyStrip raw

/-! ## The scrapers -/

/-- The top-level `try/except` of `scrape_product`: an `ok` result is returned
as is, and an in-flight exception is caught, logged, and the partial record at
raise time is returned. -/
def runScrape : Except ProductDetails ProductDetails → ProductDetails
  | .ok d => d
  | .error d => d

/-- Price text normalisation shared by both scrapers:
`float(price_text.replace('₹', '').replace(',', ''))`. -/
def parsePriceText (t : String) : Option ℚ :=
  pyFloat (pyRemoveChar (pyRemoveChar t '₹') ',')

/-- The `for selector in price_selectors:` loop of either scraper: probe each
selector in order; on a present element whose normalised text parses, set
`price` and `break`; on absence or a `ValueError`, `continue`; a raising
lookup escapes to the top-level handler with the record unchanged. -/
def priceLoop (page : Page) : List String → ProductDetails →
    Except ProductDetails ProductDetails
  | [], d => .ok d
  | sel :: rest, d =>
    match page.lookup sel with
    | .raises => .error d
    | .absent => priceLoop page rest d
    | .found raw =>
      match parsePriceText (safeGetText raw) with
      | some v => .ok { d with price := v }
      | none => priceLoop page rest d

/-- `price_selectors` of `AmazonScraper.scrape_product` (verbatim, including
the trailing space of the second entry). -/
def amazonPriceSelectors : List String :=
  ["span.a-price-whole", "span.a-price[data-a-size=xl] ",
   "div.a-align-center, .aok-align-center"]

/-- `price_selectors` of `FlipkartScraper.scrape_product` (verbatim, including
the trailing space of the first entry). -/
def flipkartPriceSelectors : List String :=
  ["div.C7fEHH ", "div.UOCQB1", "div.hl05eU .Nx9bqj"]

/-- Amazon stock step: `#availability` free text when the element is present,
else the field is left alone. -/
def amazonStockStep (page : Page) (d : ProductDetails) :
    Except ProductDetails ProductDetails :=
  match page.lookup "#availability" with
  | .raises => .error d
  | .absent => .ok d
  | .found raw => .ok { d with stock_status := safeGetText raw }

/-- Amazon rating step: `float(rating_text.split()[0])` guarded by
`except (ValueError, IndexError): pass`. -/
def amazonRatingStep (page : Page) (d : ProductDetails) :
    Except ProductDetails ProductDetails :=
  match page.lookup "span.a-icon-alt" with
  | .raises => .error d
  | .absent => .ok d
  | .found raw =>
    match pySplitFirst (safeGetText raw) with
    | none => .ok d
    | some tok =>
      match pyFloat tok with
      | some v => .ok { d with rating := v }
      | none => .ok d

/-- Review-count step, identical code in both scrapers up to the selector:
`int(review_text.split()[0].replace(',', ''))` guarded by
`except (ValueError, IndexError): pass`. -/
def reviewCountStep (page : Page) (sel : String) (d : ProductDetails) :
    Except ProductDetails ProductDetails :=
  match page.lookup sel with
  | .raises => .error d
  | .absent => .ok d
  | .found raw =>
    match pySplitFirst (safeGetText raw) with
    | none => .ok d
    | some tok =>
      match pyInt (pyRemoveChar tok ',') with
      | some n => .ok { d with review_count := n }
      | none => .ok d

/-- Flipkart stock step: set from the mere presence of the `._16FRp0`
"unavailable" marker, with no text extraction. -/
def flipkartStockStep (page : Page) (d : ProductDetails) :
    Except ProductDetails ProductDetails :=
  match page.lookup "._16FRp0" with
  | .raises => .error d
  | .absent => .ok { d with stock_status := "In Stock" }
  | .found _ => .ok { d with stock_status := "Out of Stock" }

/-- Flipkart rating step: `float(rating_text)` on the whole trimmed text,
guarded by `except ValueError: pass` (no `split()`). -/
def flipkartRatingStep (page : Page) (d : ProductDetails) :
    Except ProductDetails ProductDetails :=
  match page.lookup "div.XQDdHH" with
  | .raises => .error d
  | .absent => .ok d
  | .found raw =>
    match pyFloat (safeGetText raw) with
    | some v => .ok { d with rating := v }
    | none => .ok d

/-- The field-extraction body of `AmazonScraper.scrape_product` after
navigation, wrapped in the top-level `try/except`. -/
def amazonPipeline (page : Page) (d0 : ProductDetails) : ProductDetails :=
  runScrape (do
    let d1 ← priceLoop page amazonPriceSelectors d0
    let d2 ← amazonStockStep page d1
    let d3 ← amazonRatingStep page d2
    reviewCountStep page "#acrCustomerReviewText" d3)

/-- The field-extraction body of `FlipkartScraper.scrape_product` after
navigation, wrapped in the top-level `try/except`. -/
def flipkartPipeline (page : Page) (d0 : ProductDetails) : ProductDetails :=
  runScrape (do
    let d1 ← priceLoop page flipkartPriceSelectors d0
    let d2 ← flipkartStockStep page d1
    let d3 ← flipkartRatingStep page d2
    reviewCountStep page "span.Y1HWO0" d3)

/-- `AmazonScraper.scrape_product` (lines 75–127).  `classTs` is the frozen
dataclass timestamp default.  A failing `driver.get` raises before any field
work and is caught at top level, returning the freshly constructed record. -/
def scrapeAmazon (classTs : String) (page : Page) (url : String) :
    ProductDetails :=
  let d0 : ProductDetails :=
    { defaultDetails classTs with platform := "Amazon", url := url }
  if page.navFails then d0
  else amazonPipeline page d0

/-- `FlipkartScraper.scrape_product` (lines 132–183). -/
def scrapeFlipkart (classTs : String) (page : Page) (url : String) :
    ProductDetails :=
  let d0 : ProductDetails :=
    { defaultDetails classTs with platform := "Flipkart", url := url }
  if page.navFails then d0
  else flipkartPipeline page d0

/-! ## The aggregator (`ProductAnalyzer.analyze_product`, lines 214–246) -/

/-- Python `min(l, key=k)` on a nonempty list: a left fold keeping the current
best and replacing it only on a strictly smaller key, so the first minimum
encountered wins ties. -/
def pyMinBy {α : Type} (key : α → ℚ) : List α → Option α
  | [] => none
  | a :: as => some (as.foldl (fun acc x => if key x < key acc then x else acc) a)

/-- Python `max(l, key=k)` on a nonempty list: replaces the current best only
on a strictly larger key, so the first maximum encountered wins ties. -/
def pyMaxBy {α : Type} (key : α → ℚ) : List α → Option α
  | [] => none
  | a :: as => some (as.foldl (fun acc x => if key acc < key x then x else acc) a)

/-- Round to the nearest integer, ties to the even integer (the rounding of
Python's `round`). -/
def roundHalfEven (q : ℚ) : ℤ :=
  let f := ⌊q⌋
  let r := q - (f : ℚ)
  if r < 1 / 2 then f
  else if 1 / 2 < r then f + 1
  else if f % 2 = 0 then f else f + 1

/-- Python `round(x, 2)` in the idealised rational semantics. -/
def pyRound2 (q : ℚ) : ℚ :=
  (roundHalfEven (q * 100) : ℚ) / 100

/-- The `best_price` sub-dictionary of the report. -/
structure BestPrice where
  platform : String
  price : ℚ
  url : String
deriving DecidableEq, Repr

/-- The `highest_rated` sub-dictionary of the report. -/
structure HighestRated where
  platform : String
  rating : ℚ
  review_count : ℤ
  url : String
deriving DecidableEq, Repr

/-- The analysis report dictionary.  The three comparative keys are optional
in the Python dict; `none` models the key being absent. -/
structure Analysis where
  timestamp : String
  all_results : List ProductDetails
  error : Option String
  best_price : Option BestPrice
  highest_rated : Option HighestRated
  average_rating : Option ℚ
deriving DecidableEq, Repr

/-- The aggregation half of `ProductAnalyzer.analyze_product`: given the
collected `results` list (the scrape loop and driver cleanup are I/O and
contribute nothing to the report beyond this list), build the report.
`valid_results = [r for r in results if r.price > 0]`; the comparative keys
are added only when it is nonempty. -/
def analyze_product (nowTs : String) (results : List ProductDetails) :
    Analysis :=
  let valid := results.filter fun r => 0 < r.price
  if valid.isEmpty then
    { timestamp := nowTs
      all_results := results
      error := some "No valid prices found across platforms"
      best_price := none
      highest_rated := none
      average_rating := none }
  else
    { timestamp := nowTs
      all_results := results
      error := none
      best_price := (pyMinBy (fun x => x.price) valid).map
        (fun b => { platform := b.platform, price := b.price, url := b.url })
      highest_rated := (pyMaxBy (fun x => x.rating) valid).map
        (fun h => { platform := h.platform, rating := h.rating,
                    review_count := h.review_count, url := h.url })
      average_rating := some
        (if valid.any fun r => 0 < r.rating then
          pyRound2 ((valid.map fun r => r.rating).sum / (valid.length : ℚ))
        else 0) }

/-! ## Spec-side definitions (for refinement claims)

These definitions transcribe wording of the specification, to be compared
with the functions embedded from the source. -/

/-- Spec §4.2: `extractFirstParseable(locators, parse)` iterates the locators
in the given fixed order; for each, fetches the element, extracts text,
attempts `parse`; on first success returns that value and stops; on
exhaustion returns the field's default. -/
def specExtractFirstParseable (fetch : String → Option String)
    (parse : String → Option ℚ) (dflt : ℚ) : List String → ℚ
  | [] => dflt
  | l :: ls =>
    match fetch l with
    | none => specExtractFirstParseable fetch parse dflt ls
    | some t =>
      match parse t with
      | some v => v
      | none => specExtractFirstParseable fetch parse dflt ls

/-- Fetch-and-extract on a page whose lookups do not raise: a present
element's trimmed text, `none` when absent. -/
def fetchText (page : Page) (sel : String) : Option String :=
  match page.lookup sel with
  | .found raw => some (safeGetText raw)
  | _ => none

/-- Spec §4.4: "the valid record with minimum price (ties broken by iteration
order — first minimum encountered)": the element kept on a tie is the earlier
one. -/
def specFirstMinBy {α : Type} (key : α → ℚ) : List α → Option α
  | [] => none
  | a :: rest =>
    match specFirstMinBy key rest with
    | none => some a
    | some m => some (if key a ≤ key m then a else m)

/-- Spec §4.4: "the valid record with maximum rating (ties broken the same
way)": the element kept on a tie is the earlier one. -/
def specFirstMaxBy {α : Type} (key : α → ℚ) : List α → Option α
  | [] => none
  | a :: rest =>
    match specFirstMaxBy key rest with
    | none => some a
    | some m => some (if key m ≤ key a then a else m)

/-- Spec §4.4: arithmetic mean of a list of rationals. -/
def specMean (l : List ℚ) : ℚ := l.sum / l.length

/-! ## Helper lemmas -/

lemma priceLoop_eq_extract (page : Page) (sels : List String)
    (d : ProductDetails) (h : ∀ s ∈ sels, page.lookup s ≠ Lookup.raises) :
    priceLoop page sels d =
      .ok { d with price :=
        specExtractFirstParseable (fetchText page) parsePriceText d.price sels } := by
  induction sels generalizing d with
  | nil => simp [priceLoop, specExtractFirstParseable]
  | cons sel rest ih =>
    have hsel : page.lookup sel ≠ Lookup.raises := h sel (by simp)
    have hrest : ∀ s ∈ rest, page.lookup s ≠ Lookup.raises :=
      fun s hs => h s (by simp [hs])
    cases hl : page.lookup sel with
    | raises => exact absurd hl hsel
    | absent =>
      simp [priceLoop, specExtractFirstParseable, hl, fetchText, ih d hrest]
    | found raw =>
      cases hp : parsePriceText (safeGetText raw) with
      | none =>
        simp [priceLoop, specExtractFirstParseable, hl, fetchText, hp, ih d hrest]
      | some v =>
        simp [priceLoop, specExtractFirstParseable, hl, fetchText, hp]

lemma priceLoop_shape (page : Page) (sels : List String) (d : ProductDetails) :
    ∃ p, priceLoop page sels d = .ok { d with price := p } ∨
      priceLoop page sels d = .error { d with price := p } := by
  induction sels generalizing d with
  | nil => exact ⟨d.price, Or.inl rfl⟩
  | cons sel rest ih =>
    cases hl : page.lookup sel with
    | raises => exact ⟨d.price, Or.inr (by simp [priceLoop, hl])⟩
    | absent => simpa [priceLoop, hl] using ih d
    | found raw =>
      cases hp : parsePriceText (safeGetText raw) with
      | none => simpa [priceLoop, hl, hp] using ih d
      | some v => exact ⟨v, Or.inl (by simp [priceLoop, hl, hp])⟩

lemma amazonStockStep_shape (page : Page) (d : ProductDetails) :
    ∃ st, amazonStockStep page d = .ok { d with stock_status := st } ∨
      amazonStockStep page d = .error { d with stock_status := st } := by
  cases hl : page.lookup "#availability" with
  | raises => exact ⟨d.stock_status, Or.inr (by simp [amazonStockStep, hl])⟩
  | absent => exact ⟨d.stock_status, Or.inl (by simp [amazonStockStep, hl])⟩
  | found raw => exact ⟨safeGetText raw, Or.inl (by simp [amazonStockStep, hl])⟩

lemma flipkartStockStep_shape (page : Page) (d : ProductDetails) :
    ∃ st, flipkartStockStep page d = .ok { d with stock_status := st } ∨
      flipkartStockStep page d = .error { d with stock_status := st } := by
  cases hl : page.lookup "._16FRp0" with
  | raises => exact ⟨d.stock_status, Or.inr (by simp [flipkartStockStep, hl])⟩
  | absent => exact ⟨"In Stock", Or.inl (by simp [flipkartStockStep, hl])⟩
  | found raw => exact ⟨"Out of Stock", Or.inl (by simp [flipkartStockStep, hl])⟩

lemma amazonRatingStep_shape (page : Page) (d : ProductDetails) :
    ∃ ra, amazonRatingStep page d = .ok { d with rating := ra } ∨
      amazonRatingStep page d = .error { d with rating := ra } := by
  cases hl : page.lookup "span.a-icon-alt" with
  | raises => exact ⟨d.rating, Or.inr (by simp [amazonRatingStep, hl])⟩
  | absent => exact ⟨d.rating, Or.inl (by simp [amazonRatingStep, hl])⟩
  | found raw =>
    cases ht : pySplitFirst (safeGetText raw) with
    | none => exact ⟨d.rating, Or.inl (by simp [amazonRatingStep, hl, ht])⟩
    | some tok =>
      cases hv : pyFloat tok with
      | none => exact ⟨d.rating, Or.inl (by simp [amazonRatingStep, hl, ht, hv])⟩
      | some v => exact ⟨v, Or.inl (by simp [amazonRatingStep, hl, ht, hv])⟩

lemma flipkartRatingStep_shape (page : Page) (d : ProductDetails) :
    ∃ ra, flipkartRatingStep page d = .ok { d with rating := ra } ∨
      flipkartRatingStep page d = .error { d with rating := ra } := by
  cases hl : page.lookup "div.XQDdHH" with
  | raises => exact ⟨d.rating, Or.inr (by simp [flipkartRatingStep, hl])⟩
  | absent => exact ⟨d.rating, Or.inl (by simp [flipkartRatingStep, hl])⟩
  | found raw =>
    cases hv : pyFloat (safeGetText raw) with
    | none => exact ⟨d.rating, Or.inl (by simp [flipkartRatingStep, hl, hv])⟩
    | some v => exact ⟨v, Or.inl (by simp [flipkartRatingStep, hl, hv])⟩

lemma reviewCountStep_shape (page : Page) (sel : String) (d : ProductDetails) :
    ∃ rc, reviewCountStep page sel d = .ok { d with review_count := rc } ∨
      reviewCountStep page sel d = .error { d with review_count := rc } := by
  cases hl : page.lookup sel with
  | raises => exact ⟨d.review_count, Or.inr (by simp [reviewCountStep, hl])⟩
  | absent => exact ⟨d.review_count, Or.inl (by simp [reviewCountStep, hl])⟩
  | found raw =>
    cases ht : pySplitFirst (safeGetText raw) with
    | none => exact ⟨d.review_count, Or.inl (by simp [reviewCountStep, hl, ht])⟩
    | some tok =>
      cases hv : pyInt (pyRemoveChar tok ',') with
      | none => exact ⟨d.review_count, Or.inl (by simp [reviewCountStep, hl, ht, hv])⟩
      | some n => exact ⟨n, Or.inl (by simp [reviewCountStep, hl, ht, hv])⟩


/-- The Amazon extraction pipeline only rewrites the four extracted fields;
`seller`, `platform`, `url`, `timestamp` pass through untouched. -/
lemma amazonPipeline_shape (page : Page) (d0 : ProductDetails) :
    ∃ p st ra rc, amazonPipeline page d0 =
      { price := p, stock_status := st, rating := ra, review_count := rc,
        seller := d0.seller, platform := d0.platform, url := d0.url,
        timestamp := d0.timestamp } := by
  obtain ⟨p, hp⟩ := priceLoop_shape page amazonPriceSelectors d0
  rcases hp with hp | hp
  · obtain ⟨st, hst⟩ := amazonStockStep_shape page { d0 with price := p }
    rcases hst with hst | hst
    · obtain ⟨ra, hra⟩ :=
        amazonRatingStep_shape page { d0 with price := p, stock_status := st }
      rcases hra with hra | hra
      · obtain ⟨rc, hrc⟩ := reviewCountStep_shape page "#acrCustomerReviewText"
          { d0 with price := p, stock_status := st, rating := ra }
        rcases hrc with hrc | hrc
        · exact ⟨p, st, ra, rc, by
            simp [amazonPipeline, Bind.bind, Except.bind, hp, hst, hra, hrc, runScrape]⟩
        · exact ⟨p, st, ra, rc, by
            simp [amazonPipeline, Bind.bind, Except.bind, hp, hst, hra, hrc, runScrape]⟩
      · exact ⟨p, st, ra, d0.review_count, by
          simp [amazonPipeline, Bind.bind, Except.bind, hp, hst, hra, runScrape]⟩
    · exact ⟨p, st, d0.rating, d0.review_count, by
        simp [amazonPipeline, Bind.bind, Except.bind, hp, hst, runScrape]⟩
  · exact ⟨p, d0.stock_status, d0.rating, d0.review_count, by
      simp [amazonPipeline, Bind.bind, Except.bind, hp, runScrape]⟩

/-- The Flipkart extraction pipeline only rewrites the four extracted fields. -/
lemma flipkartPipeline_shape (page : Page) (d0 : ProductDetails) :
    ∃ p st ra rc, flipkartPipeline page d0 =
      { price := p, stock_status := st, rating := ra, review_count := rc,
        seller := d0.seller, platform := d0.platform, url := d0.url,
        timestamp := d0.timestamp } := by
  obtain ⟨p, hp⟩ := priceLoop_shape page flipkartPriceSelectors d0
  rcases hp with hp | hp
  · obtain ⟨st, hst⟩ := flipkartStockStep_shape page { d0 with price := p }
    rcases hst with hst | hst
    · obtain ⟨ra, hra⟩ :=
        flipkartRatingStep_shape page { d0 with price := p, stock_status := st }
      rcases hra with hra | hra
      · obtain ⟨rc, hrc⟩ := reviewCountStep_shape page "span.Y1HWO0"
          { d0 with price := p, stock_status := st, rating := ra }
        rcases hrc with hrc | hrc
        · exact ⟨p, st, ra, rc, by
            simp [flipkartPipeline, Bind.bind, Except.bind, hp, hst, hra, hrc, runScrape]⟩
        · exact ⟨p, st, ra, rc, by
            simp [flipkartPipeline, Bind.bind, Except.bind, hp, hst, hra, hrc, runScrape]⟩
      · exact ⟨p, st, ra, d0.review_count, by
          simp [flipkartPipeline, Bind.bind, Except.bind, hp, hst, hra, runScrape]⟩
    · exact ⟨p, st, d0.rating, d0.review_count, by
        simp [flipkartPipeline, Bind.bind, Except.bind, hp, hst, runScrape]⟩
  · exact ⟨p, d0.stock_status, d0.rating, d0.review_count, by
      simp [flipkartPipeline, Bind.bind, Except.bind, hp, runScrape]⟩

/-- Every Amazon scrape — any page, any failure pattern — yields a record over
the fixed `seller`/`platform`/`url`/`timestamp` skeleton. -/
lemma scrapeAmazon_shape (ts : String) (page : Page) (url : String) :
    ∃ p st ra rc, scrapeAmazon ts page url =
      { price := p, stock_status := st, rating := ra, review_count := rc,
        seller := "Unknown", platform := "Amazon", url := url, timestamp := ts } := by
  cases hnav : page.navFails with
  | true =>
    exact ⟨0, "Unknown", 0, 0, by simp [scrapeAmazon, hnav, defaultDetails]⟩
  | false =>
    have hs : scrapeAmazon ts page url =
        amazonPipeline page { defaultDetails ts with platform := "Amazon", url := url } := by
      simp [scrapeAmazon, hnav]
    obtain ⟨p, st, ra, rc, h⟩ := amazonPipeline_shape page
      { defaultDetails ts with platform := "Amazon", url := url }
    refine ⟨p, st, ra, rc, ?_⟩
    rw [hs, h]
    simp [defaultDetails]

/-- Every Flipkart scrape yields a record over the fixed
`seller`/`platform`/`url`/`timestamp` skeleton. -/
lemma scrapeFlipkart_shape (ts : String) (page : Page) (url : String) :
    ∃ p st ra rc, scrapeFlipkart ts page url =
      { price := p, stock_status := st, rating := ra, review_count := rc,
        seller := "Unknown", platform := "Flipkart", url := url, timestamp := ts } := by
  cases hnav : page.navFails with
  | true =>
    exact ⟨0, "Unknown", 0, 0, by simp [scrapeFlipkart, hnav, defaultDetails]⟩
  | false =>
    have hs : scrapeFlipkart ts page url =
        flipkartPipeline page { defaultDetails ts with platform := "Flipkart", url := url } := by
      simp [scrapeFlipkart, hnav]
    obtain ⟨p, st, ra, rc, h⟩ := flipkartPipeline_shape page
      { defaultDetails ts with platform := "Flipkart", url := url }
    refine ⟨p, st, ra, rc, ?_⟩
    rw [hs, h]
    simp [defaultDetails]

lemma foldl_min_eq {α : Type} (key : α → ℚ) (l : List α) (acc : α) :
    l.foldl (fun a x => if key x < key a then x else a) acc =
      match specFirstMinBy key l with
      | none => acc
      | some m => if key m < key acc then m else acc := by
  induction l generalizing acc with
  | nil => rfl
  | cons b bs ih =>
    rw [List.foldl_cons, ih]
    simp only [specFirstMinBy]
    cases hm : specFirstMinBy key bs with
    | none => rfl
    | some m =>
      dsimp only
      split_ifs <;> first | rfl | (exfalso; linarith)

lemma pyMinBy_eq_spec {α : Type} (key : α → ℚ) (l : List α) :
    pyMinBy key l = specFirstMinBy key l := by
  cases l with
  | nil => rfl
  | cons a as =>
    rw [pyMinBy, foldl_min_eq]
    simp only [specFirstMinBy]
    cases hm : specFirstMinBy key as with
    | none => rfl
    | some m =>
      dsimp only
      split_ifs <;> first | rfl | (exfalso; linarith)

lemma foldl_max_eq {α : Type} (key : α → ℚ) (l : List α) (acc : α) :
    l.foldl (fun a x => if key a < key x then x else a) acc =
      match specFirstMaxBy key l with
      | none => acc
      | some m => if key acc < key m then m else acc := by
  induction l generalizing acc with
  | nil => rfl
  | cons b bs ih =>
    rw [List.foldl_cons, ih]
    simp only [specFirstMaxBy]
    cases hm : specFirstMaxBy key bs with
    | none => rfl
    | some m =>
      dsimp only
      split_ifs <;> first | rfl | (exfalso; linarith)

lemma pyMaxBy_eq_spec {α : Type} (key : α → ℚ) (l : List α) :
    pyMaxBy key l = specFirstMaxBy key l := by
  cases l with
  | nil => rfl
  | cons a as =>
    rw [pyMaxBy, foldl_max_eq]
    simp only [specFirstMaxBy]
    cases hm : specFirstMaxBy key as with
    | none => rfl
    | some m =>
      dsimp only
      split_ifs <;> first | rfl | (exfalso; linarith)

lemma specFirstMinBy_eq_none {α : Type} (key : α → ℚ) (l : List α) :
    specFirstMinBy key l = none ↔ l = [] := by
  cases l with
  | nil => simp [specFirstMinBy]
  | cons a as =>
    simp only [specFirstMinBy]
    cases specFirstMinBy key as <;> simp

lemma specFirstMaxBy_eq_none {α : Type} (key : α → ℚ) (l : List α) :
    specFirstMaxBy key l = none ↔ l = [] := by
  cases l with
  | nil => simp [specFirstMaxBy]
  | cons a as =>
    simp only [specFirstMaxBy]
    cases specFirstMaxBy key as <;> simp

lemma specFirstMinBy_mem {α : Type} (key : α → ℚ) (l : List α) :
    ∀ m, specFirstMinBy key l = some m → m ∈ l := by
  induction l with
  | nil => intro m h; simp [specFirstMinBy] at h
  | cons a as ih =>
    intro m h
    simp only [specFirstMinBy] at h
    cases hm : specFirstMinBy key as with
    | none =>
      rw [hm] at h
      simp only [Option.some.injEq] at h
      subst h
      exact List.mem_cons_self a as
    | some m2 =>
      rw [hm] at h
      simp only [Option.some.injEq] at h
      by_cases h1 : key a ≤ key m2
      · rw [if_pos h1] at h
        subst h
        exact List.mem_cons_self a as
      · rw [if_neg h1] at h
        subst h
        exact List.mem_cons_of_mem a (ih m2 hm)

lemma specFirstMinBy_le {α : Type} (key : α → ℚ) (l : List α) :
    ∀ m, specFirstMinBy key l = some m → ∀ x ∈ l, key m ≤ key x := by
  induction l with
  | nil => intro m h; simp [specFirstMinBy] at h
  | cons a as ih =>
    intro m h
    simp only [specFirstMinBy] at h
    cases hm : specFirstMinBy key as with
    | none =>
      rw [hm] at h
      simp only [Option.some.injEq] at h
      subst h
      rw [(specFirstMinBy_eq_none key as).1 hm]
      simp
    | some m2 =>
      rw [hm] at h
      simp only [Option.some.injEq] at h
      intro x hx
      by_cases h1 : key a ≤ key m2
      · rw [if_pos h1] at h
        subst h
        rcases List.mem_cons.1 hx with rfl | hx2
        · exact le_refl _
        · exact le_trans h1 (ih m2 hm x hx2)
      · rw [if_neg h1] at h
        subst h
        push_neg at h1
        rcases List.mem_cons.1 hx with rfl | hx2
        · exact le_of_lt h1
        · exact ih m2 hm x hx2

lemma specFirstMaxBy_mem {α : Type} (key : α → ℚ) (l : List α) :
    ∀ m, specFirstMaxBy key l = some m → m ∈ l := by
  induction l with
  | nil => intro m h; simp [specFirstMaxBy] at h
  | cons a as ih =>
    intro m h
    simp only [specFirstMaxBy] at h
    cases hm : specFirstMaxBy key as with
    | none =>
      rw [hm] at h
      simp only [Option.some.injEq] at h
      subst h
      exact List.mem_cons_self a as
    | some m2 =>
      rw [hm] at h
      simp only [Option.some.injEq] at h
      by_cases h1 : key m2 ≤ key a
      · rw [if_pos h1] at h
        subst h
        exact List.mem_cons_self a as
      · rw [if_neg h1] at h
        subst h
        exact List.mem_cons_of_mem a (ih m2 hm)

lemma specFirstMaxBy_ge {α : Type} (key : α → ℚ) (l : List α) :
    ∀ m, specFirstMaxBy key l = some m → ∀ x ∈ l, key x ≤ key m := by
  induction l with
  | nil => intro m h; simp [specFirstMaxBy] at h
  | cons a as ih =>
    intro m h
    simp only [specFirstMaxBy] at h
    cases hm : specFirstMaxBy key as with
    | none =>
      rw [hm] at h
      simp only [Option.some.injEq] at h
      subst h
      rw [(specFirstMaxBy_eq_none key as).1 hm]
      simp
    | some m2 =>
      rw [hm] at h
      simp only [Option.some.injEq] at h
      intro x hx
      by_cases h1 : key m2 ≤ key a
      · rw [if_pos h1] at h
        subst h
        rcases List.mem_cons.1 hx with rfl | hx2
        · exact le_refl _
        · exact le_trans (ih m2 hm x hx2) h1
      · rw [if_neg h1] at h
        subst h
        push_neg at h1
        rcases List.mem_cons.1 hx with rfl | hx2
        · exact le_of_lt h1
        · exact ih m2 hm x hx2

/-- First-occurrence tie-break, positionally: `specFirstMinBy` returns the
element at an index all of whose predecessors have a strictly larger key. -/
lemma specFirstMinBy_first {α : Type} (key : α → ℚ) (l : List α) :
    ∀ m, specFirstMinBy key l = some m →
      ∃ i, l[i]? = some m ∧ ∀ x ∈ l.take i, key m < key x := by
  induction l with
  | nil => intro m h; simp [specFirstMinBy] at h
  | cons a as ih =>
    intro m h
    simp only [specFirstMinBy] at h
    cases hm : specFirstMinBy key as with
    | none =>
      rw [hm] at h
      simp only [Option.some.injEq] at h
      subst h
      exact ⟨0, by simp, by simp⟩
    | some m2 =>
      rw [hm] at h
      simp only [Option.some.injEq] at h
      by_cases h1 : key a ≤ key m2
      · rw [if_pos h1] at h
        subst h
        exact ⟨0, by simp, by simp⟩
      · rw [if_neg h1] at h
        subst h
        push_neg at h1
        obtain ⟨i, hi, hlt⟩ := ih m2 hm
        refine ⟨i + 1, by simpa using hi, ?_⟩
        intro x hx
        rw [List.take_succ_cons] at hx
        rcases List.mem_cons.1 hx with rfl | hx2
        · exact h1
        · exact hlt x hx2

/-- First-occurrence tie-break for the maximum, positionally. -/
lemma specFirstMaxBy_first {α : Type} (key : α → ℚ) (l : List α) :
    ∀ m, specFirstMaxBy key l = some m →
      ∃ i, l[i]? = some m ∧ ∀ x ∈ l.take i, key x < key m := by
  induction l with
  | nil => intro m h; simp [specFirstMaxBy] at h
  | cons a as ih =>
    intro m h
    simp only [specFirstMaxBy] at h
    cases hm : specFirstMaxBy key as with
    | none =>
      rw [hm] at h
      simp only [Option.some.injEq] at h
      subst h
      exact ⟨0, by simp, by simp⟩
    | some m2 =>
      rw [hm] at h
      simp only [Option.some.injEq] at h
      by_cases h1 : key m2 ≤ key a
      · rw [if_pos h1] at h
        subst h
        exact ⟨0, by simp, by simp⟩
      · rw [if_neg h1] at h
        subst h
        push_neg at h1
        obtain ⟨i, hi, hlt⟩ := ih m2 hm
        refine ⟨i + 1, by simpa using hi, ?_⟩
        intro x hx
        rw [List.take_succ_cons] at hx
        rcases List.mem_cons.1 hx with rfl | hx2
        · exact h1
        · exact hlt x hx2

/-! ## Concrete inputs used by witnesses and counterexamples -/

/-- Page where the first Amazon price selector matches but yields unparseable
text, the second is absent, and the third matches and parses. -/
def c1Page : Page :=
  { navFails := false
    lookup := fun s =>
      if s = "span.a-price-whole" then Lookup.found "Price now"
      else if s = "span.a-price[data-a-size=xl] " then Lookup.absent
      else if s = "div.a-align-center, .aok-align-center" then Lookup.found "₹1,234"
      else Lookup.absent }

/-- Scraped record: Amazon, price 999, rating 4, 120 reviews. -/
def recA : ProductDetails :=
  { price := 999, stock_status := "In Stock", rating := 4, review_count := 120,
    seller := "Unknown", platform := "Amazon", url := "ua", timestamp := "t0" }

/-- Scraped record: Flipkart, price 799, rating 4 (tied with `recA`),
80 reviews. -/
def recF : ProductDetails :=
  { price := 799, stock_status := "In Stock", rating := 4, review_count := 80,
    seller := "Unknown", platform := "Flipkart", url := "uf", timestamp := "t0" }

/-- Valid record with rating 4. -/
def recRated : ProductDetails :=
  { price := 10, stock_status := "In Stock", rating := 4, review_count := 5,
    seller := "Unknown", platform := "Amazon", url := "u1", timestamp := "t0" }

/-- Valid record with rating 0 (unrated). -/
def recUnratedA : ProductDetails :=
  { price := 20, stock_status := "In Stock", rating := 0, review_count := 0,
    seller := "Unknown", platform := "Flipkart", url := "u2", timestamp := "t0" }

/-- Another valid record with rating 0. -/
def recUnratedB : ProductDetails :=
  { price := 30, stock_status := "In Stock", rating := 0, review_count := 0,
    seller := "Unknown", platform := "Amazon", url := "u3", timestamp := "t0" }

/-- Flipkart page whose rating element reads `9.9` and everything else is
absent. -/
def c5Page : Page :=
  { navFails := false
    lookup := fun s =>
      if s = "div.XQDdHH" then Lookup.found "9.9" else Lookup.absent }

/-- Page with every element absent. -/
def allAbsentPage : Page :=
  { navFails := false, lookup := fun _ => Lookup.absent }

/-- Amazon page whose rating element reads `4.3 out of 5 stars`. -/
def c6AmazonPage : Page :=
  { navFails := false
    lookup := fun s =>
      if s = "span.a-icon-alt" then Lookup.found "4.3 out of 5 stars"
      else Lookup.absent }

/-- Flipkart page whose rating element reads `4.3 out of 5 stars`. -/
def c6FlipkartPage : Page :=
  { navFails := false
    lookup := fun s =>
      if s = "div.XQDdHH" then Lookup.found "4.3 out of 5 stars"
      else Lookup.absent }

/-- Flipkart page whose rating element reads a bare `4.3`. -/
def c6FlipkartPlainPage : Page :=
  { navFails := false
    lookup := fun s =>
      if s = "div.XQDdHH" then Lookup.found "4.3" else Lookup.absent }

/-- Flipkart page where the `._16FRp0` unavailable marker is present (with
arbitrary text) and everything else is absent. -/
def c8PresentPage : Page :=
  { navFails := false
    lookup := fun s =>
      if s = "._16FRp0" then Lookup.found "Currently unavailable banner"
      else Lookup.absent }

/-- Page whose navigation fails. -/
def navFailPage : Page :=
  { navFails := true, lookup := fun _ => Lookup.absent }

/-! ## Rounding, all-absent and plumbing lemmas -/

lemma roundHalfEven_close (q : ℚ) : |(roundHalfEven q : ℚ) - q| ≤ 1 / 2 := by
  have h1 : (⌊q⌋ : ℚ) ≤ q := Int.floor_le q
  have h2 : q < ⌊q⌋ + 1 := Int.lt_floor_add_one q
  rw [roundHalfEven]
  split_ifs with ha hb hc
  · rw [abs_le]; constructor <;> linarith
  · rw [abs_le]; push_cast; constructor <;> linarith
  · push_neg at ha hb
    rw [abs_le]; constructor <;> linarith
  · push_neg at ha hb
    rw [abs_le]; push_cast; constructor <;> linarith

lemma pyRound2_close (q : ℚ) : |pyRound2 q - q| ≤ 1 / 200 := by
  have h := roundHalfEven_close (q * 100)
  rw [pyRound2]
  have h2 : (roundHalfEven (q * 100) : ℚ) / 100 - q =
      ((roundHalfEven (q * 100) : ℚ) - q * 100) / 100 := by ring
  rw [h2, abs_div, abs_of_pos (by norm_num : (0 : ℚ) < 100)]
  linarith

lemma priceLoop_absent (page : Page) (sels : List String) (d : ProductDetails)
    (h : ∀ s ∈ sels, page.lookup s = Lookup.absent) :
    priceLoop page sels d = .ok d := by
  induction sels with
  | nil => rfl
  | cons sel rest ih =>
    have hsel : page.lookup sel = Lookup.absent := h sel (by simp)
    simp [priceLoop, hsel, ih (fun s hs => h s (by simp [hs]))]

lemma amazonPipeline_all_absent (page : Page) (d0 : ProductDetails)
    (h : ∀ s, page.lookup s = Lookup.absent) :
    amazonPipeline page d0 = d0 := by
  have hp := priceLoop_absent page amazonPriceSelectors d0 (fun s _ => h s)
  simp [amazonPipeline, Bind.bind, Except.bind, hp, amazonStockStep,
    amazonRatingStep, reviewCountStep, h, runScrape]

lemma flipkartPipeline_all_absent (page : Page) (d0 : ProductDetails)
    (h : ∀ s, page.lookup s = Lookup.absent) :
    flipkartPipeline page d0 = { d0 with stock_status := "In Stock" } := by
  have hp := priceLoop_absent page flipkartPriceSelectors d0 (fun s _ => h s)
  simp [flipkartPipeline, Bind.bind, Except.bind, hp, flipkartStockStep,
    flipkartRatingStep, reviewCountStep, h, runScrape]

lemma scrapeAmazon_all_absent (ts url : String) (page : Page)
    (h : ∀ s, page.lookup s = Lookup.absent) :
    scrapeAmazon ts page url =
      { defaultDetails ts with platform := "Amazon", url := url } := by
  cases hnav : page.navFails with
  | true => simp [scrapeAmazon, hnav]
  | false => simp [scrapeAmazon, hnav, amazonPipeline_all_absent page _ h]

lemma scrapeFlipkart_all_absent (ts url : String) (page : Page)
    (h : ∀ s, page.lookup s = Lookup.absent) :
    scrapeFlipkart ts page url =
      { defaultDetails ts with
        platform := "Flipkart"
        url := url
        stock_status := (if page.navFails then "Unknown" else "In Stock") } := by
  cases hnav : page.navFails with
  | true => simp [scrapeFlipkart, hnav, defaultDetails]
  | false =>
    simp [scrapeFlipkart, hnav, flipkartPipeline_all_absent page _ h, defaultDetails]

lemma excOk_bind (x : ProductDetails)
    (f : ProductDetails → Except ProductDetails ProductDetails) :
    (Except.ok x : Except ProductDetails ProductDetails) >>= f = f x := rfl

/-- The rating and review steps of the Flipkart pipeline never touch
`stock_status`, on success or on a caught exception. -/
lemma flipkartTail_stock (page : Page) (d2 : ProductDetails) :
    (runScrape (do
      let d3 ← flipkartRatingStep page d2
      reviewCountStep page "span.Y1HWO0" d3)).stock_status = d2.stock_status := by
  obtain ⟨ra, hra⟩ := flipkartRatingStep_shape page d2
  rcases hra with hra | hra
  · obtain ⟨rc, hrc⟩ := reviewCountStep_shape page "span.Y1HWO0" { d2 with rating := ra }
    rcases hrc with hrc | hrc <;>
      simp [Bind.bind, Except.bind, hra, hrc, runScrape]
  · simp [Bind.bind, Except.bind, hra, runScrape]

/-! ## Claim theorems -/

/-- C1: per-site price extraction probes the ordered locator list and sets
`price` from the first locator that both matches an element and whose text
parses as a decimal after stripping the currency symbol and thousands
separators; absent locators and parse failures are skipped, and on exhaustion
the price keeps its incoming default.  Stated as a refinement: the source's
selector loop equals the spec's `extractFirstParseable` over the same
locators, on any page whose lookups do not raise. -/
theorem c1_price_first_parseable (page : Page) (sels : List String)
    (d : ProductDetails) (h : ∀ s ∈ sels, page.lookup s ≠ Lookup.raises) :
    priceLoop page sels d =
      .ok { d with price :=
        specExtractFirstParseable (fetchText page) parsePriceText d.price sels } :=
  priceLoop_eq_extract page sels d h

/-- C1 witness: locators `[L1, L2, L3]` with L1 matching but unparseable, L2
absent, L3 matching `₹1,234`: the loop returns price 1234. -/
theorem c1_witness :
    priceLoop c1Page amazonPriceSelectors (defaultDetails "t0") =
      .ok { defaultDetails "t0" with price := 1234 } := by
  rw [c1_price_first_parseable c1Page amazonPriceSelectors (defaultDetails "t0")
    (by decide)]
  have h : specExtractFirstParseable (fetchText c1Page) parsePriceText
      (defaultDetails "t0").price amazonPriceSelectors =
      ratOfParts false (1234, 0, 0) := rfl
  rw [h]
  norm_num [ratOfParts, defaultDetails]

/-- C2: the report's `error` is exactly "No valid prices found across
platforms" iff no collected record has positive price, in which case none of
the three comparative keys is present; with at least one valid record all
three keys are present and `error` stays `None`. -/
theorem c2_error_vs_keys (nowTs : String) (results : List ProductDetails) :
    ((analyze_product nowTs results).error =
      if (results.filter fun r => 0 < r.price).isEmpty then
        some "No valid prices found across platforms" else none) ∧
    (analyze_product nowTs results).best_price.isSome =
      !(results.filter fun r => 0 < r.price).isEmpty ∧
    (analyze_product nowTs results).highest_rated.isSome =
      !(results.filter fun r => 0 < r.price).isEmpty ∧
    (analyze_product nowTs results).average_rating.isSome =
      !(results.filter fun r => 0 < r.price).isEmpty := by
  cases hv : results.filter fun r => 0 < r.price with
  | nil => simp [analyze_product, hv]
  | cons a as => simp [analyze_product, hv, pyMinBy, pyMaxBy]

/-- C7 (code bug): the `timestamp` dataclass default is evaluated once at
class definition, so records constructed at later clock readings still carry
the class-definition time, not their construction time. -/
theorem c7_frozen_default_timestamp :
    (productDetailsAt "2026-02-03 09:00:00" "2026-02-03 10:00:00" "Amazon"
      "u1").timestamp = "2026-02-03 09:00:00" ∧
    (productDetailsAt "2026-02-03 09:00:00" "2026-02-03 11:00:00" "Flipkart"
      "u2").timestamp = "2026-02-03 09:00:00" ∧
    ("2026-02-03 09:00:00" : String) ≠ "2026-02-03 10:00:00" ∧
    ("2026-02-03 09:00:00" : String) ≠ "2026-02-03 11:00:00" :=
  ⟨rfl, rfl, by decide, by decide⟩

/-- C9: `scrape_product` is total — on every page, every failure pattern
included, it returns a record whose `platform` and `url` are already set; and
when navigation itself fails the record is exactly the freshly constructed
default one. -/
theorem c9_no_propagation (ts url : String) (page : Page) :
    (scrapeAmazon ts page url).platform = "Amazon" ∧
    (scrapeAmazon ts page url).url = url ∧
    (scrapeFlipkart ts page url).platform = "Flipkart" ∧
    (scrapeFlipkart ts page url).url = url ∧
    (page.navFails = true →
      scrapeAmazon ts page url =
        { defaultDetails ts with platform := "Amazon", url := url } ∧
      scrapeFlipkart ts page url =
        { defaultDetails ts with platform := "Flipkart", url := url }) := by
  obtain ⟨pa, sta, raa, rca, ha⟩ := scrapeAmazon_shape ts page url
  obtain ⟨pf, stf, raf, rcf, hf⟩ := scrapeFlipkart_shape ts page url
  refine ⟨by rw [ha], by rw [ha], by rw [hf], by rw [hf], fun hnav => ⟨?_, ?_⟩⟩
  · simp [scrapeAmazon, hnav]
  · simp [scrapeFlipkart, hnav]

/-- C9 witness: a page whose navigation fails still yields a record with the
platform and url set, equal to the defaulted record. -/
theorem c9_witness :
    (scrapeAmazon "t0" navFailPage "u").platform = "Amazon" ∧
    scrapeAmazon "t0" navFailPage "u" =
      { defaultDetails "t0" with platform := "Amazon", url := "u" } := by
  obtain ⟨h1, h2, h3, h4, h5⟩ := c9_no_propagation "t0" "u" navFailPage
  exact ⟨h1, (h5 rfl).1⟩

/-- C10: every record of one run carries the same timestamp — the frozen
class-definition default — whatever its construction clock reading, whatever
page either scraper observed. -/
theorem c10_shared_timestamp (ts ca cb p1 u1 p2 u2 ua uf : String)
    (pgA pgF : Page) :
    (scrapeAmazon ts pgA ua).timestamp = ts ∧
    (scrapeFlipkart ts pgF uf).timestamp = ts ∧
    (productDetailsAt ts ca p1 u1).timestamp =
      (productDetailsAt ts cb p2 u2).timestamp := by
  obtain ⟨pa, sta, raa, rca, ha⟩ := scrapeAmazon_shape ts pgA ua
  obtain ⟨pf, stf, raf, rcf, hf⟩ := scrapeFlipkart_shape ts pgF uf
  exact ⟨by rw [ha], by rw [hf], rfl⟩

/-- C3: with valid records present, `best_price` projects the valid record
with minimum price and `highest_rated` the valid record with maximum rating,
both with first-occurrence tie-break (every earlier valid record is strictly
worse); a zero-price record is never the `highest_rated` since the chosen
record has positive price. -/
theorem c3_extrema_first_occurrence (nowTs : String)
    (results : List ProductDetails)
    (h : (results.filter fun r => 0 < r.price) ≠ []) :
    ∃ bp hr : ProductDetails,
      specFirstMinBy (fun r => r.price) (results.filter fun r => 0 < r.price) =
        some bp ∧
      specFirstMaxBy (fun r => r.rating) (results.filter fun r => 0 < r.price) =
        some hr ∧
      (analyze_product nowTs results).best_price =
        some { platform := bp.platform, price := bp.price, url := bp.url } ∧
      (analyze_product nowTs results).highest_rated =
        some { platform := hr.platform, rating := hr.rating,
               review_count := hr.review_count, url := hr.url } ∧
      bp ∈ results.filter (fun r => 0 < r.price) ∧
      (∀ x ∈ results.filter (fun r => 0 < r.price), bp.price ≤ x.price) ∧
      (∃ i, (results.filter (fun r => 0 < r.price))[i]? = some bp ∧
        ∀ x ∈ (results.filter (fun r => 0 < r.price)).take i,
          bp.price < x.price) ∧
      hr ∈ results.filter (fun r => 0 < r.price) ∧
      (∀ x ∈ results.filter (fun r => 0 < r.price), x.rating ≤ hr.rating) ∧
      (∃ i, (results.filter (fun r => 0 < r.price))[i]? = some hr ∧
        ∀ x ∈ (results.filter (fun r => 0 < r.price)).take i,
          x.rating < hr.rating) ∧
      0 < hr.price := by
  have hne : (results.filter fun r => 0 < r.price).isEmpty = false := by
    cases hv : results.filter fun r => 0 < r.price with
    | nil => exact absurd hv h
    | cons a as => rfl
  obtain ⟨bp, hbp⟩ : ∃ bp,
      specFirstMinBy (fun r => r.price) (results.filter fun r => 0 < r.price) =
        some bp := by
    cases hsm : specFirstMinBy (fun r => r.price)
        (results.filter fun r => 0 < r.price) with
    | none => exact absurd ((specFirstMinBy_eq_none _ _).1 hsm) h
    | some bp => exact ⟨bp, rfl⟩
  obtain ⟨hr, hhr⟩ : ∃ hr,
      specFirstMaxBy (fun r => r.rating) (results.filter fun r => 0 < r.price) =
        some hr := by
    cases hsm : specFirstMaxBy (fun r => r.rating)
        (results.filter fun r => 0 < r.price) with
    | none => exact absurd ((specFirstMaxBy_eq_none _ _).1 hsm) h
    | some hr => exact ⟨hr, rfl⟩
  have hmem := specFirstMaxBy_mem (fun r => r.rating)
    (results.filter fun r => 0 < r.price) hr hhr
  refine ⟨bp, hr, hbp, hhr, ?_, ?_,
    specFirstMinBy_mem _ _ bp hbp, specFirstMinBy_le _ _ bp hbp,
    specFirstMinBy_first _ _ bp hbp,
    hmem, specFirstMaxBy_ge _ _ hr hhr, specFirstMaxBy_first _ _ hr hhr, ?_⟩
  · simp [analyze_product, hne, pyMinBy_eq_spec, hbp]
  · simp [analyze_product, hne, pyMaxBy_eq_spec, hhr]
  · have := (List.mem_filter.1 hmem).2
    simpa using this

/-- C3 witness: over `[recA, recF]` (prices 999 and 799, ratings tied at 4)
the best price is `recF` and the highest rated is `recA`, the first of the
tied pair. -/
theorem c3_witness :
    (analyze_product "t1" [recA, recF]).best_price =
      some { platform := "Flipkart", price := 799, url := "uf" } ∧
    (analyze_product "t1" [recA, recF]).highest_rated =
      some { platform := "Amazon", rating := 4, review_count := 120,
             url := "ua" } := by
  obtain ⟨bp, hr, hbp, hhr, hbest, hhigh, -⟩ :=
    c3_extrema_first_occurrence "t1" [recA, recF] (by decide)
  have hbp2 : specFirstMinBy (fun r => r.price)
      ([recA, recF].filter fun r => 0 < r.price) = some recF := by decide
  have hhr2 : specFirstMaxBy (fun r => r.rating)
      ([recA, recF].filter fun r => 0 < r.price) = some recA := by decide
  rw [hbp] at hbp2
  rw [hhr] at hhr2
  simp only [Option.some.injEq] at hbp2 hhr2
  subst hbp2
  subst hhr2
  rw [hbest, hhigh]
  exact ⟨rfl, rfl⟩

/-- C4: with valid records present, `average_rating` is present; it is 0 when
no valid record has positive rating, and otherwise it is the arithmetic mean
of the valid ratings rounded to two decimals (hence within 1/200 of the exact
mean). -/
theorem c4_average_rating (nowTs : String) (results : List ProductDetails)
    (h : (results.filter fun r => 0 < r.price) ≠ []) :
    ∃ q, (analyze_product nowTs results).average_rating = some q ∧
      (((results.filter fun r => 0 < r.price).any fun r => 0 < r.rating) =
          false → q = 0) ∧
      (((results.filter fun r => 0 < r.price).any fun r => 0 < r.rating) =
          true →
        q = pyRound2 (specMean
          ((results.filter fun r => 0 < r.price).map fun r => r.rating)) ∧
        |q - specMean
          ((results.filter fun r => 0 < r.price).map fun r => r.rating)| ≤
          1 / 200) := by
  have hne : (results.filter fun r => 0 < r.price).isEmpty = false := by
    cases hv : results.filter fun r => 0 < r.price with
    | nil => exact absurd hv h
    | cons a as => rfl
  refine ⟨if (results.filter fun r => 0 < r.price).any (fun r => 0 < r.rating)
    then pyRound2 (specMean
      ((results.filter fun r => 0 < r.price).map fun r => r.rating))
    else 0, ?_, ?_, ?_⟩
  · simp [analyze_product, hne, specMean]
  · intro ha; simp [ha]
  · intro ha
    refine ⟨by simp [ha], ?_⟩
    simp only [ha, if_true]
    exact pyRound2_close _

/-- C4 witness: valid ratings `[4, 0]` give average 2 (not suppressed);
valid ratings `[0, 0]` give average 0. -/
theorem c4_witness :
    (analyze_product "t1" [recRated, recUnratedA]).average_rating = some 2 ∧
    (analyze_product "t1" [recUnratedA, recUnratedB]).average_rating =
      some 0 := by
  constructor
  · obtain ⟨q, hq, -, hpos⟩ :=
      c4_average_rating "t1" [recRated, recUnratedA] (by decide)
    obtain ⟨he, -⟩ := hpos (by decide)
    rw [hq, he]
    have hf : ([recRated, recUnratedA].filter fun r => 0 < r.price) =
        [recRated, recUnratedA] := by decide
    rw [hf]
    have hm : ([recRated, recUnratedA].map fun r => r.rating) =
        [(4 : ℚ), 0] := by decide
    rw [hm]
    norm_num [specMean, pyRound2, roundHalfEven]
  · obtain ⟨q, hq, hzero, -⟩ :=
      c4_average_rating "t1" [recUnratedA, recUnratedB] (by decide)
    rw [hq, hzero (by decide)]

/-- C5 counterexample: the scrapers perform no domain validation — a Flipkart
page whose rating element reads `9.9` produces a record with rating 9.9,
violating the claimed invariant `rating ≤ 5`. -/
theorem c5_counterexample :
    ¬ ((scrapeFlipkart "t0" c5Page "u").rating ≤ 5) := by
  have h : (scrapeFlipkart "t0" c5Page "u").rating = ratOfParts false (9, 9, 1) :=
    rfl
  rw [h]
  norm_num [ratOfParts]

/-- C5 amended: when extraction fails entirely (every lookup absent) the
numeric fields keep their defaults `price = 0`, `rating = 0`,
`review_count = 0`, which satisfy the documented domains; parsed values are
stored without domain validation. -/
theorem c5_defaults_in_domain (ts url : String) (page : Page)
    (h : ∀ s, page.lookup s = Lookup.absent) :
    ((scrapeAmazon ts page url).price = 0 ∧
      (scrapeAmazon ts page url).rating = 0 ∧
      (scrapeAmazon ts page url).review_count = 0) ∧
    ((scrapeFlipkart ts page url).price = 0 ∧
      (scrapeFlipkart ts page url).rating = 0 ∧
      (scrapeFlipkart ts page url).review_count = 0) ∧
    (0 ≤ (scrapeAmazon ts page url).price ∧
      0 ≤ (scrapeAmazon ts page url).rating ∧
      (scrapeAmazon ts page url).rating ≤ 5 ∧
      0 ≤ (scrapeAmazon ts page url).review_count) ∧
    (0 ≤ (scrapeFlipkart ts page url).price ∧
      0 ≤ (scrapeFlipkart ts page url).rating ∧
      (scrapeFlipkart ts page url).rating ≤ 5 ∧
      0 ≤ (scrapeFlipkart ts page url).review_count) := by
  have ha := scrapeAmazon_all_absent ts url page h
  have hf := scrapeFlipkart_all_absent ts url page h
  rw [ha, hf]
  norm_num [defaultDetails]

/-- C5 witness: on the all-absent page both scrapers return all-default
numeric fields, inside the documented domains. -/
theorem c5_witness :
    (scrapeAmazon "t0" allAbsentPage "u").price = 0 ∧
    (scrapeFlipkart "t0" allAbsentPage "u").rating = 0 := by
  obtain ⟨⟨hpa, -, -⟩, ⟨-, hrf, -⟩, -⟩ :=
    c5_defaults_in_domain "t0" "u" allAbsentPage (fun s => rfl)
  exact ⟨hpa, hrf⟩

/-- C6 counterexample: rating text `4.3 out of 5 stars` yields 4.3 on Amazon
but 0 on Flipkart, so the claim that both sites tolerate trailing text fails
on Flipkart. -/
theorem c6_counterexample :
    (scrapeAmazon "t0" c6AmazonPage "u").rating = 43 / 10 ∧
    (scrapeFlipkart "t0" c6FlipkartPage "u").rating = 0 ∧
    ((0 : ℚ) ≠ 43 / 10) := by
  refine ⟨?_, rfl, by norm_num⟩
  have h : (scrapeAmazon "t0" c6AmazonPage "u").rating =
      ratOfParts false (4, 3, 1) := rfl
  rw [h]
  norm_num [ratOfParts]

/-- C6 amended: only the Amazon scraper takes the first whitespace-delimited
token before parsing the rating; the Flipkart scraper parses the entire
trimmed text, so `4.3 out of 5 stars` parses to 4.3 on Amazon, is dropped on
Flipkart, while a bare `4.3` parses on Flipkart too. -/
theorem c6_rating_tokenisation (d : ProductDetails) :
    amazonRatingStep c6AmazonPage d = .ok { d with rating := 43 / 10 } ∧
    flipkartRatingStep c6FlipkartPage d = .ok d ∧
    flipkartRatingStep c6FlipkartPlainPage d = .ok { d with rating := 43 / 10 } := by
  refine ⟨?_, rfl, ?_⟩
  · have h : amazonRatingStep c6AmazonPage d =
        .ok { d with rating := ratOfParts false (4, 3, 1) } := rfl
    rw [h]
    norm_num [ratOfParts]
  · have h : flipkartRatingStep c6FlipkartPlainPage d =
        .ok { d with rating := ratOfParts false (4, 3, 1) } := rfl
    rw [h]
    norm_num [ratOfParts]

/-- C8: when the Flipkart page is reached and the lookups involved do not
raise, the stock status is decided solely by the presence of the `._16FRp0`
marker — presence gives exactly "Out of Stock", absence exactly "In Stock",
whatever any element's text. -/
theorem c8_stock_by_presence (ts url : String) (page : Page)
    (hnav : page.navFails = false)
    (hp : ∀ s ∈ flipkartPriceSelectors, page.lookup s ≠ Lookup.raises)
    (hs : page.lookup "._16FRp0" ≠ Lookup.raises) :
    (scrapeFlipkart ts page url).stock_status =
      match page.lookup "._16FRp0" with
      | Lookup.found _ => "Out of Stock"
      | _ => "In Stock" := by
  have hpl := priceLoop_eq_extract page flipkartPriceSelectors
    { defaultDetails ts with platform := "Flipkart", url := url } hp
  have e1 : scrapeFlipkart ts page url = flipkartPipeline page
      { defaultDetails ts with platform := "Flipkart", url := url } := by
    simp [scrapeFlipkart, hnav]
  rw [e1]
  simp only [flipkartPipeline]
  rw [hpl, excOk_bind]
  cases hl : page.lookup "._16FRp0" with
  | raises => exact absurd hl hs
  | absent =>
    have e2 : flipkartStockStep page
        { { defaultDetails ts with platform := "Flipkart", url := url } with
          price := specExtractFirstParseable (fetchText page) parsePriceText
            ({ defaultDetails ts with platform := "Flipkart", url := url }).price
            flipkartPriceSelectors } =
        .ok { { { defaultDetails ts with platform := "Flipkart", url := url } with
          price := specExtractFirstParseable (fetchText page) parsePriceText
            ({ defaultDetails ts with platform := "Flipkart", url := url }).price
            flipkartPriceSelectors } with stock_status := "In Stock" } := by
      simp [flipkartStockStep, hl]
    rw [e2, excOk_bind, flipkartTail_stock]
  | found marker =>
    have e2 : flipkartStockStep page
        { { defaultDetails ts with platform := "Flipkart", url := url } with
          price := specExtractFirstParseable (fetchText page) parsePriceText
            ({ defaultDetails ts with platform := "Flipkart", url := url }).price
            flipkartPriceSelectors } =
        .ok { { { defaultDetails ts with platform := "Flipkart", url := url } with
          price := specExtractFirstParseable (fetchText page) parsePriceText
            ({ defaultDetails ts with platform := "Flipkart", url := url }).price
            flipkartPriceSelectors } with stock_status := "Out of Stock" } := by
      simp [flipkartStockStep, hl]
    rw [e2, excOk_bind, flipkartTail_stock]

/-- C8 witness: a present marker (with irrelevant text) gives "Out of Stock";
an absent marker gives "In Stock". -/
theorem c8_witness :
    (scrapeFlipkart "t0" c8PresentPage "u").stock_status = "Out of Stock" ∧
    (scrapeFlipkart "t0" allAbsentPage "u").stock_status = "In Stock" := by
  constructor
  · rw [c8_stock_by_presence "t0" "u" c8PresentPage rfl (by decide) (by decide)]
    rfl
  · rw [c8_stock_by_presence "t0" "u" allAbsentPage rfl (by decide) (by decide)]
    rfl
